import Mathlib

/-!
# Verification of the esp32-mainboard firmware control plane

A shallow embedding of the parts of the firmware that the specification's
claims are about:

* `src/power/controller.rs` — the expander bitfield (`ExpanderReg` /
  `ExpanderStatus`), `PowerController::switch_mode`, `setup_expander`,
  `get_mode`;
* `src/tasks/power.rs` — `handle_power_controller_interrupt` and the
  `sleep_time` derivation of `power_controller_task`;
* `src/tasks/adc.rs` — the sample calibration arithmetic and the buffer /
  scalar publication of `adc_task`;
* `src/tasks/digital_io.rs` — `pin_state` and the event order of
  `digital_pin_task`.

Machine integers are modelled as `Nat` with explicit reductions modulo
`2^8`, `2^16` and `2^32` exactly where the Rust code truncates.  Fallible
I²C operations are modelled by threading explicit success flags and
returning `Except`.
-/

/-! ## Bit arithmetic on bytes

`ExpanderReg` in `controller.rs` is a `#[bitfield(u8)]` with eight one-bit
fields, P0 being the least significant bit.  A setter of the field at bit
`i` clears that bit and installs the new value; an accessor extracts it. -/

/-- Bit `i` of `b` as a `Nat` (`0` or `1`). -/
def bitOf (b i : Nat) : Nat := b / 2 ^ i % 2

/-- Overwrite the one-bit field at position `i` of `b` with `v`
(the semantics of a one-bit `bitfields` setter on a `u8`). -/
def setBit8 (b i v : Nat) : Nat :=
  b / 2 ^ (i + 1) * 2 ^ (i + 1) + v * 2 ^ i + b % 2 ^ i

/-! ## `ExpanderStatus` (controller.rs lines 45–143)

The bit layout of `ExpanderReg`, LSB first: P0 `chr_en`, P1 `chr_otg`,
P2 unused, P3 `chr_psel`, P4 `vbus_flg`, P5 `vbus_enable`,
P6 `vbus_present`, P7 `dc_jack_present`.  The wrapper `ExpanderStatus`
encodes the polarity of each signal; we model it as the raw byte (a `Nat`)
with the polarity-aware accessors of the source. -/

namespace ExpanderStatus

/-- `chr_en` is active low (controller.rs line 80). -/
def set_chr_en (b : Nat) (enabled : Bool) : Nat :=
  setBit8 b 0 (if enabled then 0 else 1)

def chr_en (b : Nat) : Bool := bitOf b 0 == 0

/-- `chr_otg` is active high (controller.rs line 89). -/
def set_chr_otg (b : Nat) (enabled : Bool) : Nat :=
  setBit8 b 1 (if enabled then 1 else 0)

def chr_otg (b : Nat) : Bool := bitOf b 1 != 0

/-- `chr_psel` is active low (controller.rs line 98). -/
def set_chr_psel (b : Nat) (enabled : Bool) : Nat :=
  setBit8 b 3 (if enabled then 0 else 1)

def chr_psel (b : Nat) : Bool := bitOf b 3 == 0

/-- `vbus_enable` is active high (controller.rs line 107). -/
def set_vbus_enable (b : Nat) (enabled : Bool) : Nat :=
  setBit8 b 5 (if enabled then 1 else 0)

def vbus_enable (b : Nat) : Bool := bitOf b 5 != 0

/-- `vbus_flg` is active low (controller.rs line 116). -/
def vbus_flg (b : Nat) : Bool := bitOf b 4 == 0

/-- `vbus_present` is active low (controller.rs line 121). -/
def vbus_present (b : Nat) : Bool := bitOf b 6 == 0

/-- `dc_jack_present` is active low (controller.rs line 126). -/
def dc_jack_present (b : Nat) : Bool := bitOf b 7 == 0

end ExpanderStatus

/-! ## The power controller (controller.rs lines 226–464) -/

/-- `PowerControllerMode` (controller.rs line 227). -/
inductive PowerControllerMode
  | Passive
  | Charging
  | Otg
deriving DecidableEq, Repr

/-- The two error constructors of `PowerControllerError` that
`switch_mode` can produce (src/power/mod.rs wraps the underlying I²C
errors; only the constructor tag matters to the claims). -/
inductive PowerControllerError
  | I2cBusError
  | I2CExpanderError
deriving DecidableEq, Repr

/-- The charging / OTG enable bits of the charger's
power-on-configuration register, the fields `switch_mode` writes through
`enable_charging` / `disable_charging` / `enable_otg` / `disable_otg`. -/
structure PowerOnConfigurationRegister where
  charge_enabled : Bool
  otg_enabled : Bool
deriving DecidableEq, Repr

namespace PowerOnConfigurationRegister

def enable_charging (r : PowerOnConfigurationRegister) : PowerOnConfigurationRegister :=
  { r with charge_enabled := true }

def disable_charging (r : PowerOnConfigurationRegister) : PowerOnConfigurationRegister :=
  { r with charge_enabled := false }

def enable_otg (r : PowerOnConfigurationRegister) : PowerOnConfigurationRegister :=
  { r with otg_enabled := true }

def disable_otg (r : PowerOnConfigurationRegister) : PowerOnConfigurationRegister :=
  { r with otg_enabled := false }

end PowerOnConfigurationRegister

/-- The stats snapshot `PowerControllerStats` (controller.rs line 146).
Of its four fields, `switch_mode` and the interrupt handler only consult
the expander byte; the charger registers and the boost flag are carried
along unmodified and are modelled abstractly. -/
structure PowerControllerStats where
  /-- the raw `ExpanderStatus` byte -/
  expander_status : Nat
  boost_enabled : Bool := false
deriving DecidableEq, Repr

/-- The mutable state of `PowerController` that the claims are about:
the recorded `mode`, the last byte written to the PCF8574 expander, and
the charger's power-on-configuration register. -/
structure PowerController where
  mode : PowerControllerMode
  expander : Nat
  pocr : PowerOnConfigurationRegister
deriving DecidableEq, Repr

namespace PowerController

/-- `PowerController::switch_mode` (controller.rs lines 348–396).

The two I²C writes may each fail; `expanderOk` and `chargerOk` say
whether the expander write and the charger transact succeed.  On an
expander failure the function returns early with `I2CExpanderError` and
nothing is written; on a charger failure the expander byte has already
been rewritten but the register and the recorded mode are untouched;
`self.mode = mode` runs only after both writes succeed. -/
def switch_mode (self : PowerController) (mode : PowerControllerMode)
    (stats : PowerControllerStats) (expanderOk chargerOk : Bool) :
    PowerController × Except PowerControllerError Unit :=
  let status := stats.expander_status
  let step : PowerController × Except PowerControllerError Unit :=
    match mode with
    | .Passive =>
      let status := ExpanderStatus.set_chr_en status false
      let status := ExpanderStatus.set_vbus_enable status true
      if expanderOk then
        let self := { self with expander := status }
        if chargerOk then
          ({ self with
              pocr := (self.pocr.disable_charging).disable_otg }, .ok ())
        else
          (self, .error .I2cBusError)
      else
        (self, .error .I2CExpanderError)
    | .Charging =>
      let status := ExpanderStatus.set_chr_en status true
      let status := ExpanderStatus.set_vbus_enable status true
      if expanderOk then
        let self := { self with expander := status }
        if chargerOk then
          ({ self with
              pocr := (self.pocr.enable_charging).disable_otg }, .ok ())
        else
          (self, .error .I2cBusError)
      else
        (self, .error .I2CExpanderError)
    | .Otg =>
      let status := ExpanderStatus.set_chr_en status false
      let status := ExpanderStatus.set_vbus_enable status false
      if expanderOk then
        let self := { self with expander := status }
        if chargerOk then
          ({ self with
              pocr := (self.pocr.disable_charging).enable_otg }, .ok ())
        else
          (self, .error .I2cBusError)
      else
        (self, .error .I2CExpanderError)
  match step with
  | (s, .ok _) => ({ s with mode := mode }, .ok ())
  | e => e

/-- `PowerController::get_mode` (controller.rs line 436). -/
def get_mode (self : PowerController) : PowerControllerMode := self.mode

end PowerController

/-- The single byte `PowerController::setup_expander` writes to the
expander (controller.rs lines 266–273): build the view from `0xFF`,
then `set_chr_otg(true)`. -/
def setup_expander_byte : Nat :=
  ExpanderStatus.set_chr_otg 255 true

/-! ## The power controller task (tasks/power.rs) -/

/-- `WatchdogTimer` of the bq24296m configuration, the charger's I²C
watchdog period selector. -/
inductive WatchdogTimer
  | Disabled
  | Seconds40
  | Seconds80
  | Seconds160
deriving DecidableEq, Repr

/-- The `sleep_time` computed by `power_controller_task`
(tasks/power.rs lines 153–157), in seconds. -/
def sleep_time : WatchdogTimer → Nat
  | .Disabled | .Seconds40 => 20
  | .Seconds80 => 40
  | .Seconds160 => 80

/-- The watchdog window in seconds that each enabled `WatchdogTimer`
variant selects; `Disabled` selects no window. -/
def watchdogWindow : WatchdogTimer → Option Nat
  | .Disabled => none
  | .Seconds40 => some 40
  | .Seconds80 => some 80
  | .Seconds160 => some 160

/-- `handle_power_controller_interrupt` (tasks/power.rs lines 79–102):
read a fresh stats snapshot (`readResult` models the outcome of
`read_stats`, propagated by `?`), then re-evaluate the automatic mode
from the snapshot's `vbus_present` input. -/
def handle_power_controller_interrupt (pctl : PowerController)
    (readResult : Except PowerControllerError PowerControllerStats)
    (expanderOk chargerOk : Bool) :
    PowerController × Except PowerControllerError Unit :=
  match readResult with
  | .error e => (pctl, .error e)
  | .ok stats =>
    match pctl.get_mode with
    | .Otg =>
      if ExpanderStatus.vbus_present stats.expander_status then
        pctl.switch_mode .Charging stats expanderOk chargerOk
      else
        (pctl, .ok ())
    | _ =>
      if ! ExpanderStatus.vbus_present stats.expander_status then
        pctl.switch_mode .Otg stats expanderOk chargerOk
      else
        (pctl, .ok ())

/-! ## The ADC sampler task (tasks/adc.rs) -/

/-- `ADC_BUFFER_SIZE` (adc.rs line 20). -/
def ADC_BUFFER_SIZE : Nat := 125

/-- The millivolt conversion of one raw sample (adc.rs lines 198–218):
`((raw as u32) * calibration / 1000) as u16`.  `raw` is a `u16`, widened
to `u32`; the multiplication is `u32` (reduced mod `2^32`), the division
truncates, and the final `as u16` cast truncates mod `2^16`. -/
def adcMilliVolts (raw cal : Nat) : Nat :=
  raw * cal % 4294967296 / 1000 % 65536

/-- `AdcState` (adc.rs line 24): the latest scalar view, millivolts per
channel. -/
structure AdcState where
  battery_voltage : Nat
  boost_voltage : Nat
  a0 : Nat
  a1 : Nat
  a2 : Nat
  a3 : Nat
  a4 : Nat
deriving DecidableEq, Repr

/-- `AdcBufferData` (adc.rs line 35): one sample buffer, a 32-bit
sequence number plus `ADC_BUFFER_SIZE` samples per channel. -/
structure AdcBufferData where
  sequence : Nat
  battery_voltage : Fin ADC_BUFFER_SIZE → Nat
  boost_voltage : Fin ADC_BUFFER_SIZE → Nat
  a0 : Fin ADC_BUFFER_SIZE → Nat
  a1 : Fin ADC_BUFFER_SIZE → Nat
  a2 : Fin ADC_BUFFER_SIZE → Nat
  a3 : Fin ADC_BUFFER_SIZE → Nat
  a4 : Fin ADC_BUFFER_SIZE → Nat

/-- `VoltageMonitorCalibrationConfig` (adc.rs line 46): one calibration
constant per channel. -/
structure VoltageMonitorCalibrationConfig where
  battery_voltage_calibration : Nat
  boost_voltage_calibration : Nat
  a0_calibration : Nat
  a1_calibration : Nat
  a2_calibration : Nat
  a3_calibration : Nat
  a4_calibration : Nat
deriving DecidableEq, Repr

/-- `VoltageMonitorCalibrationConfig::default` (adc.rs lines 56–69). -/
def defaultCalibration : VoltageMonitorCalibrationConfig :=
  { battery_voltage_calibration := 5624
    boost_voltage_calibration := 13717
    a0_calibration := 4774
    a1_calibration := 3100
    a2_calibration := 3129
    a3_calibration := 3136
    a4_calibration := 14316 }

/-- The raw `u16` values `read_oneshot` returns during one buffer
iteration, indexed by sample position, one function per channel. -/
structure AdcRawReads where
  battery : Fin ADC_BUFFER_SIZE → Nat
  boost : Fin ADC_BUFFER_SIZE → Nat
  a0 : Fin ADC_BUFFER_SIZE → Nat
  a1 : Fin ADC_BUFFER_SIZE → Nat
  a2 : Fin ADC_BUFFER_SIZE → Nat
  a3 : Fin ADC_BUFFER_SIZE → Nat
  a4 : Fin ADC_BUFFER_SIZE → Nat

/-- One iteration of the buffer-filling loop of `adc_task`
(adc.rs lines 183–221): every slot `i` of every channel holds the
calibrated millivolt value of that channel's raw reading at `i`. -/
def fillBuffer (seq : Nat) (cal : VoltageMonitorCalibrationConfig)
    (raw : AdcRawReads) : AdcBufferData :=
  { sequence := seq
    battery_voltage := fun i => adcMilliVolts (raw.battery i) cal.battery_voltage_calibration
    boost_voltage := fun i => adcMilliVolts (raw.boost i) cal.boost_voltage_calibration
    a0 := fun i => adcMilliVolts (raw.a0 i) cal.a0_calibration
    a1 := fun i => adcMilliVolts (raw.a1 i) cal.a1_calibration
    a2 := fun i => adcMilliVolts (raw.a2 i) cal.a2_calibration
    a3 := fun i => adcMilliVolts (raw.a3 i) cal.a3_calibration
    a4 := fun i => adcMilliVolts (raw.a4 i) cal.a4_calibration }

/-- The scalar `AdcState` that `adc_task` sends after completing a buffer
(adc.rs lines 223–233): the sample at `last_idx = ADC_BUFFER_SIZE - 1`
of every channel. -/
def lastState (buf : AdcBufferData) : AdcState :=
  { battery_voltage := buf.battery_voltage ⟨ADC_BUFFER_SIZE - 1, by decide⟩
    boost_voltage := buf.boost_voltage ⟨ADC_BUFFER_SIZE - 1, by decide⟩
    a0 := buf.a0 ⟨ADC_BUFFER_SIZE - 1, by decide⟩
    a1 := buf.a1 ⟨ADC_BUFFER_SIZE - 1, by decide⟩
    a2 := buf.a2 ⟨ADC_BUFFER_SIZE - 1, by decide⟩
    a3 := buf.a3 ⟨ADC_BUFFER_SIZE - 1, by decide⟩
    a4 := buf.a4 ⟨ADC_BUFFER_SIZE - 1, by decide⟩ }

/-- `u32::wrapping_add` on `Nat`. -/
def wrappingAdd32 (a b : Nat) : Nat := (a + b) % 4294967296

/-- The sequence number carried by the `k`-th buffer `adc_task`
publishes (adc.rs lines 181, 184, 238): the counter starts at `0` and is
advanced by `sequence.wrapping_add(1)` after every publication. -/
def adcSequence : Nat → Nat
  | 0 => 0
  | k + 1 => wrappingAdd32 (adcSequence k) 1

/-- The spec's words for the sample conversion, for comparison with the
code's `adcMilliVolts`: "multiply the raw value by the per-channel
calibration constant and divide by 1000 (unsigned arithmetic, result
saturating to 16 bits)". -/
def saturatingMilliVolts (raw cal : Nat) : Nat :=
  min (raw * cal / 1000) 65535

/-- Modelled from the spec: the ADC buffer pub/sub channel is an
`embassy_sync::pubsub::PubSubChannel` of capacity 2 (adc.rs line 82),
a library type whose source is not part of this repository.  §5 of the
spec describes its semantics: a bounded queue per subscriber;
`publish_immediate` is non-blocking and a subscriber that falls more
than `K` messages behind loses the oldest.  The per-subscriber queue is
modelled as a list of pending messages, oldest first. -/
def publishImmediate (K : Nat) (q : List Nat) (msg : Nat) : List Nat :=
  let q := q ++ [msg]
  if K < q.length then q.drop (q.length - K) else q

/-- Modelled from the spec: a subscriber taking the next pending message
from its queue (`none` when it is empty). -/
def nextMessage (q : List Nat) : Option (Nat × List Nat) :=
  match q with
  | [] => none
  | m :: rest => some (m, rest)

/-! ## The digital-I/O pin agents (tasks/digital_io.rs) -/

/-- `PinMode` (digital_io.rs line 25). -/
inductive PinMode
  | OpenDrain
  | PushPull
deriving DecidableEq, BEq, Repr

/-- `PinState` (digital_io.rs line 43).  `FunckingBad` is the error
state the spec calls `Inconsistent`. -/
inductive PinState
  | InLow
  | InHigh
  | DrivingLow
  | DrivingHigh
  | FunckingBad
deriving DecidableEq, BEq, Repr

/-- `Command` (digital_io.rs line 76). -/
inductive Command
  | SetState (state : Bool)
  | SetMode (mode : PinMode)
deriving DecidableEq, Repr

/-- `pin_state` (digital_io.rs lines 144–161): the published state as a
function of the electrical readback `is_high`, the last driven level
`is_set_high`, and the mode. -/
def pin_state (is_high is_set_high : Bool) (mode : PinMode) : PinState :=
  match is_high, is_set_high, mode with
  | true, true, .OpenDrain => .InHigh
  | false, true, .OpenDrain => .InLow
  | false, false, .OpenDrain => .DrivingLow
  | true, false, .OpenDrain => .FunckingBad
  | true, true, .PushPull => .DrivingHigh
  | false, false, .PushPull => .DrivingLow
  | false, true, .PushPull => .FunckingBad
  | true, false, .PushPull => .FunckingBad

/-- The per-pin state a `digital_pin_task` maintains across loop
iterations: `current_mode` and the last level driven through
`set_level` (the hardware's `is_set_high`). -/
structure AgentState where
  mode : PinMode
  set_high : Bool
deriving DecidableEq, Repr

/-- The effect of one `Command` on the agent state (digital_io.rs lines
203–216): `SetState` drives the level, `SetMode` reconfigures the drive
mode and preserves the last commanded level. -/
def applyCommand (st : AgentState) : Command → AgentState
  | .SetState state => { st with set_high := state }
  | .SetMode mode => { st with mode := mode }

/-- The externally visible events of a pin agent. -/
inductive PinEvent
  | publish (mode : PinMode) (state : PinState)
  | respond
deriving DecidableEq, BEq, Repr

/-- The ordered events `digital_pin_task` produces from the moment a
command is received until the task next suspends (digital_io.rs lines
194–225): the command is applied to the pin, the response is sent
(line 205 / 215), the loop returns to its head, and the new
`(mode, state)` is published (line 196) before the task blocks in
`select` again.  `line_high` is the electrical readback `is_high` at
the time of that publish. -/
def commandEvents (st : AgentState) (c : Command) (line_high : Bool) :
    List PinEvent :=
  let st := applyCommand st c
  [PinEvent.respond,
   PinEvent.publish st.mode (pin_state line_high st.set_high st.mode)]

/-- Event `a` occurs before event `b` in trace `l` (both occur, and the
first occurrence of `a` precedes the first occurrence of `b`). -/
def eventBefore (l : List PinEvent) (a b : PinEvent) : Bool :=
  l.contains a && l.contains b && l.indexOf a < l.indexOf b

/-! ## Theorems -/

/-- C7: the pin state published by a pin agent is the deterministic
function of (electrical readback `is_high`, last-driven `is_set_high`,
mode) given by the table: in OpenDrain mode (true,true) yields InHigh,
(false,true) yields InLow, (false,false) yields DrivingLow, (true,false)
yields Inconsistent (`FunckingBad`); in PushPull mode (true,true) yields
DrivingHigh, (false,false) yields DrivingLow, and every other PushPull
combination yields Inconsistent. -/
theorem c7_pin_state_table :
    pin_state true true .OpenDrain = .InHigh ∧
    pin_state false true .OpenDrain = .InLow ∧
    pin_state false false .OpenDrain = .DrivingLow ∧
    pin_state true false .OpenDrain = .FunckingBad ∧
    pin_state true true .PushPull = .DrivingHigh ∧
    pin_state false false .PushPull = .DrivingLow ∧
    pin_state false true .PushPull = .FunckingBad ∧
    pin_state true false .PushPull = .FunckingBad := by
  decide

/-- C8: the power-controller loop's wait timeout `sleep_time` is 20
seconds for Disabled or 40 s, 40 seconds for 80 s, and 80 seconds for
160 s — in every case at most half of the watchdog window the selector
chooses, so a watchdog reset write (issued unconditionally at the end of
each loop iteration) is attempted at most every W/2 seconds of waiting. -/
theorem c8_sleep_time_half_window :
    sleep_time .Disabled = 20 ∧
    sleep_time .Seconds40 = 20 ∧
    sleep_time .Seconds80 = 40 ∧
    sleep_time .Seconds160 = 80 ∧
    (∀ t W, watchdogWindow t = some W → 2 * sleep_time t ≤ W) := by
  refine ⟨rfl, rfl, rfl, rfl, ?_⟩
  intro t W h
  cases t <;> simp [watchdogWindow] at h <;> simp [sleep_time] <;> omega

theorem c8_sleep_time_half_window_witness :
    watchdogWindow .Seconds160 = some 160 ∧ 2 * sleep_time .Seconds160 ≤ 160 :=
  ⟨rfl, c8_sleep_time_half_window.2.2.2.2 .Seconds160 160 rfl⟩

/-- C9 counterexample: the claim says the byte written by
`setup_expander` has the `chr_otg` bit (P1) equal to 0 and all other
bits 1, i.e. equals `0xFD` = 253.  In the code `set_chr_otg(true)` SETS
the active-high bit, so the byte written is `0xFF` = 255 with P1 = 1. -/
theorem c9_setup_byte_counterexample :
    setup_expander_byte = 255 ∧
    bitOf setup_expander_byte 1 = 1 ∧
    setup_expander_byte ≠ 253 := by
  decide

/-- C9 (amended): during initialization `setup_expander` constructs the
output view from the byte `0xFF` and then SETS the `chr_otg` bit per its
active-high polarity, so the single byte written over I²C to the
expander has the `chr_otg` bit (P1) equal to 1 — the view reports
`chr_otg` enabled — and all other bits equal to 1 as well: the byte is
`0xFF`. -/
theorem c9_setup_byte :
    setup_expander_byte = 255 ∧
    ExpanderStatus.chr_otg setup_expander_byte = true ∧
    bitOf setup_expander_byte 0 = 1 ∧
    bitOf setup_expander_byte 1 = 1 ∧
    bitOf setup_expander_byte 2 = 1 ∧
    bitOf setup_expander_byte 3 = 1 ∧
    bitOf setup_expander_byte 4 = 1 ∧
    bitOf setup_expander_byte 5 = 1 ∧
    bitOf setup_expander_byte 6 = 1 ∧
    bitOf setup_expander_byte 7 = 1 := by
  decide

/-- C1: for every mode `m` and stats snapshot `s`, a `switch_mode(m, s)`
call that returns `Ok` writes the expander output byte with `chr_en` and
`vbus_enable` set per the mode table (Passive: chr_en off, vbus_enable
on; Charging: chr_en on, vbus_enable on; Otg: chr_en off, vbus_enable
off), with `chr_en` encoded active-low in bit P0 and `vbus_enable`
active-high in bit P5, and writes the charger's power-on-configuration
register per the same table (Passive: charging disabled, OTG disabled;
Charging: charging enabled, OTG disabled; Otg: charging disabled, OTG
enabled). -/
theorem c1_switch_mode_table
    (self : PowerController) (mode : PowerControllerMode)
    (stats : PowerControllerStats) (eOk cOk : Bool)
    (hok : (self.switch_mode mode stats eOk cOk).2 = .ok ()) :
    (mode = .Passive →
      ExpanderStatus.chr_en (self.switch_mode mode stats eOk cOk).1.expander = false ∧
      ExpanderStatus.vbus_enable (self.switch_mode mode stats eOk cOk).1.expander = true ∧
      (self.switch_mode mode stats eOk cOk).1.pocr = ⟨false, false⟩) ∧
    (mode = .Charging →
      ExpanderStatus.chr_en (self.switch_mode mode stats eOk cOk).1.expander = true ∧
      ExpanderStatus.vbus_enable (self.switch_mode mode stats eOk cOk).1.expander = true ∧
      (self.switch_mode mode stats eOk cOk).1.pocr = ⟨true, false⟩) ∧
    (mode = .Otg →
      ExpanderStatus.chr_en (self.switch_mode mode stats eOk cOk).1.expander = false ∧
      ExpanderStatus.vbus_enable (self.switch_mode mode stats eOk cOk).1.expander = false ∧
      (self.switch_mode mode stats eOk cOk).1.pocr = ⟨false, true⟩) ∧
    bitOf (self.switch_mode mode stats eOk cOk).1.expander 0 =
      (if mode = .Charging then 0 else 1) ∧
    bitOf (self.switch_mode mode stats eOk cOk).1.expander 5 =
      (if mode = .Otg then 0 else 1) := by
  cases mode <;> cases eOk <;> cases cOk <;>
    simp_all [PowerController.switch_mode, PowerOnConfigurationRegister.enable_charging,
      PowerOnConfigurationRegister.disable_charging, PowerOnConfigurationRegister.enable_otg,
      PowerOnConfigurationRegister.disable_otg, ExpanderStatus.set_chr_en,
      ExpanderStatus.set_vbus_enable, ExpanderStatus.chr_en, ExpanderStatus.vbus_enable,
      setBit8, bitOf] <;> omega

theorem c1_switch_mode_table_witness :
    (PowerController.switch_mode ⟨.Passive, 255, ⟨false, false⟩⟩ .Charging
        ⟨255, false⟩ true true).2 = .ok () ∧
    (ExpanderStatus.chr_en (PowerController.switch_mode ⟨.Passive, 255, ⟨false, false⟩⟩
        .Charging ⟨255, false⟩ true true).1.expander = true ∧
      ExpanderStatus.vbus_enable (PowerController.switch_mode ⟨.Passive, 255, ⟨false, false⟩⟩
        .Charging ⟨255, false⟩ true true).1.expander = true ∧
      (PowerController.switch_mode ⟨.Passive, 255, ⟨false, false⟩⟩ .Charging
        ⟨255, false⟩ true true).1.pocr = ⟨true, false⟩) :=
  ⟨rfl,
   (c1_switch_mode_table ⟨.Passive, 255, ⟨false, false⟩⟩ .Charging ⟨255, false⟩
      true true rfl).2.1 rfl⟩

/-- Writing `chr_en` and then `vbus_enable` touches only bits P0 and
P5 of the expander byte. -/
theorem bitOf_set_en_vbus (b : Nat) (e v : Bool) (j : Nat)
    (hj : j < 8) (h0 : j ≠ 0) (h5 : j ≠ 5) :
    bitOf (ExpanderStatus.set_vbus_enable (ExpanderStatus.set_chr_en b e) v) j =
      bitOf b j := by
  cases e <;> cases v <;>
    (interval_cases j <;>
      (norm_num [ExpanderStatus.set_vbus_enable, ExpanderStatus.set_chr_en,
        setBit8, bitOf]) <;> omega)

/-- C6: for every mode `m` and stats snapshot `s`, `switch_mode(m, s)`
changes only the `chr_en` (P0) and `vbus_enable` (P5) bits of the
expander output byte relative to the expander byte carried in `s`: the
`chr_otg` bit (P1), the `chr_psel` bit (P3), and every other bit of the
byte written to the expander equal the corresponding bits of `s`.  The
expander write succeeds here (`expanderOk = true`), so the byte written
is recorded in the `expander` field whatever the charger write does. -/
theorem c6_switch_mode_frame
    (self : PowerController) (mode : PowerControllerMode)
    (stats : PowerControllerStats) (cOk : Bool) (j : Nat)
    (hj : j < 8) (h0 : j ≠ 0) (h5 : j ≠ 5) :
    bitOf (self.switch_mode mode stats true cOk).1.expander j =
      bitOf stats.expander_status j ∧
    bitOf (self.switch_mode mode stats true cOk).1.expander 1 =
      bitOf stats.expander_status 1 ∧
    bitOf (self.switch_mode mode stats true cOk).1.expander 3 =
      bitOf stats.expander_status 3 := by
  cases mode <;> cases cOk <;>
    simp [PowerController.switch_mode] <;>
    exact ⟨bitOf_set_en_vbus _ _ _ j hj h0 h5,
      bitOf_set_en_vbus _ _ _ 1 (by omega) (by omega) (by omega),
      bitOf_set_en_vbus _ _ _ 3 (by omega) (by omega) (by omega)⟩

theorem c6_switch_mode_frame_witness :
    ((6 : Nat) < 8 ∧ (6 : Nat) ≠ 0 ∧ (6 : Nat) ≠ 5) ∧
    (bitOf (PowerController.switch_mode ⟨.Passive, 0, ⟨false, false⟩⟩ .Otg
        ⟨255, false⟩ true true).1.expander 6 = bitOf 255 6 ∧
     bitOf (PowerController.switch_mode ⟨.Passive, 0, ⟨false, false⟩⟩ .Otg
        ⟨255, false⟩ true true).1.expander 1 = bitOf 255 1 ∧
     bitOf (PowerController.switch_mode ⟨.Passive, 0, ⟨false, false⟩⟩ .Otg
        ⟨255, false⟩ true true).1.expander 3 = bitOf 255 3) :=
  ⟨by decide,
   c6_switch_mode_frame ⟨.Passive, 0, ⟨false, false⟩⟩ .Otg ⟨255, false⟩ true 6
     (by decide) (by decide) (by decide)⟩

/-- C10: for every mode `m` and stats snapshot `s`, if `switch_mode(m, s)`
returns `Err` (from either the expander write or the charger write) the
recorded mode returned by `get_mode` is unchanged; the call returns `Ok`
exactly when both the expander write and the charger register write
succeed, and exactly then the recorded mode is set to `m` (even though
the expander byte may already have been rewritten when the charger write
is the step that fails). -/
theorem c10_switch_mode_error_mode
    (self : PowerController) (mode : PowerControllerMode)
    (stats : PowerControllerStats) (eOk cOk : Bool) :
    ((self.switch_mode mode stats eOk cOk).2 = .ok () ↔ (eOk = true ∧ cOk = true)) ∧
    ((self.switch_mode mode stats eOk cOk).2 = .ok () →
      (self.switch_mode mode stats eOk cOk).1.get_mode = mode) ∧
    (∀ e, (self.switch_mode mode stats eOk cOk).2 = .error e →
      (self.switch_mode mode stats eOk cOk).1.get_mode = self.get_mode) := by
  cases mode <;> cases eOk <;> cases cOk <;>
    simp [PowerController.switch_mode, PowerController.get_mode]

theorem c10_switch_mode_error_mode_witness :
    (PowerController.switch_mode ⟨.Passive, 0, ⟨false, false⟩⟩ .Otg
      ⟨255, false⟩ true false).1.get_mode = PowerController.get_mode ⟨.Passive, 0, ⟨false, false⟩⟩ :=
  (c10_switch_mode_error_mode ⟨.Passive, 0, ⟨false, false⟩⟩ .Otg ⟨255, false⟩
      true false).2.2 .I2cBusError rfl

/-- C5: handling a `CheckInterrupt` request first reads a fresh stats
snapshot (modelled by the `.ok stats` read result: the decision below is
a function of the fresh snapshot), and then: if the current mode is Otg
and `vbus_present` is true it switches the mode to Charging; if the
current mode is not Otg and `vbus_present` is false it switches the mode
to Otg; in every other combination of current mode and `vbus_present` it
performs no mode change (the controller state is returned untouched).
The I²C writes of the switch succeed here. -/
theorem c5_check_interrupt
    (pctl : PowerController) (stats : PowerControllerStats) :
    (pctl.get_mode = .Otg →
      ExpanderStatus.vbus_present stats.expander_status = true →
      (handle_power_controller_interrupt pctl (.ok stats) true true).1.get_mode = .Charging ∧
      (handle_power_controller_interrupt pctl (.ok stats) true true).2 = .ok ()) ∧
    (pctl.get_mode ≠ .Otg →
      ExpanderStatus.vbus_present stats.expander_status = false →
      (handle_power_controller_interrupt pctl (.ok stats) true true).1.get_mode = .Otg ∧
      (handle_power_controller_interrupt pctl (.ok stats) true true).2 = .ok ()) ∧
    (pctl.get_mode = .Otg →
      ExpanderStatus.vbus_present stats.expander_status = false →
      (handle_power_controller_interrupt pctl (.ok stats) true true).1 = pctl ∧
      (handle_power_controller_interrupt pctl (.ok stats) true true).2 = .ok ()) ∧
    (pctl.get_mode ≠ .Otg →
      ExpanderStatus.vbus_present stats.expander_status = true →
      (handle_power_controller_interrupt pctl (.ok stats) true true).1 = pctl ∧
      (handle_power_controller_interrupt pctl (.ok stats) true true).2 = .ok ()) := by
  obtain ⟨m, e, p⟩ := pctl
  cases m <;> cases h : ExpanderStatus.vbus_present stats.expander_status <;>
    simp_all [handle_power_controller_interrupt, PowerController.get_mode,
      PowerController.switch_mode]

theorem c5_check_interrupt_witness :
    PowerController.get_mode ⟨.Otg, 0, ⟨false, false⟩⟩ = .Otg ∧
    ExpanderStatus.vbus_present 0 = true ∧
    (handle_power_controller_interrupt ⟨.Otg, 0, ⟨false, false⟩⟩
      (.ok ⟨0, false⟩) true true).1.get_mode = .Charging :=
  ⟨rfl, rfl, ((c5_check_interrupt ⟨.Otg, 0, ⟨false, false⟩⟩ ⟨0, false⟩).1 rfl rfl).1⟩

/-- C2 counterexample: the claim says the updated `(mode, state)` value
is published to the pin's watch BEFORE the command response is sent.  In
`digital_pin_task` the response is sent at digital_io.rs line 205 / 215
and the state is only published at the top of the next loop iteration
(line 196): in the event trace of handling `SetState(false)` from
`(OpenDrain, set_high = true)` with the line reading low, the publish of
the updated value `(OpenDrain, DrivingLow)` does NOT precede the
response, although both events occur. -/
theorem c2_publish_order_counterexample :
    eventBefore (commandEvents ⟨.OpenDrain, true⟩ (.SetState false) false)
      (.publish .OpenDrain .DrivingLow) .respond = false ∧
    (commandEvents ⟨.OpenDrain, true⟩ (.SetState false) false).contains
      (.publish .OpenDrain .DrivingLow) = true ∧
    (commandEvents ⟨.OpenDrain, true⟩ (.SetState false) false).contains .respond = true := by
  decide

/-- C2 (amended): for every digital-pin command handled by a pin agent
task, the command response is sent FIRST, and the updated `(mode, state)`
value — the pin's mode and the state computed by `pin_state` from the
electrical readback and the last driven level after the command's effect
— is published to the pin's watch at the top of the next loop iteration,
before the task suspends again.  (Because the tasks are cooperatively
scheduled and the agent does not suspend between the two events, a
`transact` caller still resumes only after the publish.) -/
theorem c2_respond_then_publish (st : AgentState) (c : Command) (line : Bool) :
    eventBefore (commandEvents st c line) .respond
      (.publish (applyCommand st c).mode
        (pin_state line (applyCommand st c).set_high (applyCommand st c).mode)) = true := by
  obtain ⟨m, s⟩ := st
  rcases c with b | mm
  · cases m <;> cases s <;> cases b <;> cases line <;> decide
  · cases m <;> cases s <;> cases mm <;> cases line <;> decide

/-- C3 counterexample: the claim says the millivolt value stored in the
buffer saturates to 16 bits (any quotient greater than 65535 is stored
as 65535).  The code's `as u16` cast truncates instead: a raw `u16`
reading of 5000 on channel a4 (calibration 14316) yields the quotient
71580, stored as `71580 mod 2^16 = 6044`, not 65535. -/
theorem c3_truncation_counterexample :
    (fillBuffer 0 defaultCalibration
      ⟨fun _ => 0, fun _ => 0, fun _ => 0, fun _ => 0, fun _ => 0, fun _ => 0,
       fun _ => 5000⟩).a4 ⟨0, by decide⟩ = 6044 ∧
    5000 * defaultCalibration.a4_calibration / 1000 = 71580 ∧
    saturatingMilliVolts 5000 defaultCalibration.a4_calibration = 65535 ∧
    (6044 : Nat) ≠ 65535 := by
  decide

/-- C3 (amended): for every raw ADC reading `r` and that channel's
calibration constant `c` (with `r * c` below `2^32`, as holds for every
`u16` reading and every configured calibration constant), the millivolt
value stored in the buffer at index `i` equals `r * c / 1000` computed
in unsigned arithmetic with the result TRUNCATED to 16 bits
(`mod 2^16`); whenever the quotient is at most 65535 — in particular
for every reading the 12-bit ADC can produce — this coincides with the
spec's saturating value. -/
theorem c3_millivolts_truncate (raw cal : Nat) (h : raw * cal < 4294967296) :
    adcMilliVolts raw cal = raw * cal / 1000 % 65536 ∧
    (raw * cal / 1000 < 65536 →
      adcMilliVolts raw cal = saturatingMilliVolts raw cal) ∧
    (∀ (s : Nat) (c : VoltageMonitorCalibrationConfig) (r : AdcRawReads)
        (i : Fin ADC_BUFFER_SIZE),
      (fillBuffer s c r).battery_voltage i =
        adcMilliVolts (r.battery i) c.battery_voltage_calibration ∧
      (fillBuffer s c r).a4 i = adcMilliVolts (r.a4 i) c.a4_calibration) := by
  unfold adcMilliVolts saturatingMilliVolts
  refine ⟨by rw [Nat.mod_eq_of_lt h], ?_, ?_⟩
  · intro hq
    rw [Nat.mod_eq_of_lt h]
    generalize raw * cal / 1000 = q at hq ⊢
    omega
  · intro s c r i
    exact ⟨rfl, rfl⟩

theorem c3_millivolts_truncate_witness :
    1000 * 5624 < 4294967296 ∧
    adcMilliVolts 1000 5624 = 1000 * 5624 / 1000 % 65536 :=
  ⟨by decide, (c3_millivolts_truncate 1000 5624 (by decide)).1⟩

/-- C4 counterexample: the claim says every single subscriber observes
`next.sequence = prev.sequence + 1 mod 2^32` between two consecutive
`AdcBufferData` messages.  The buffer channel is published with
`publish_immediate` into a capacity-2 pub/sub (adc.rs lines 82, 236),
which the spec itself describes as lossy.  In this trace the subscriber
takes the buffer with sequence 0, then the producer publishes the
buffers with sequences 1, 2, 3 — the oldest is dropped — and the next
message the subscriber takes carries sequence 2, not 0 + 1. -/
theorem c4_sequence_gap_counterexample :
    nextMessage (publishImmediate 2 [] (adcSequence 0)) = some (0, []) ∧
    nextMessage (publishImmediate 2 (publishImmediate 2
        (publishImmediate 2 [] (adcSequence 1)) (adcSequence 2)) (adcSequence 3)) =
      some (2, [3]) ∧
    (2 : Nat) ≠ wrappingAdd32 0 1 := by
  decide

/-- C4 (amended): the buffer sequence increments by 1 mod 2^32 between
consecutive PUBLICATIONS (so a subscriber that misses no buffer observes
`next.sequence = prev.sequence + 1 mod 2^32`, but a slow subscriber may
observe gaps, the channel being lossy); and for each of the seven
channels the scalar `AdcState` value published alongside a buffer equals
element `L-1` (the final element) of the most recently completed
buffer. -/
theorem c4_sequence_and_scalar :
    (∀ k, adcSequence k = k % 4294967296) ∧
    (∀ k, adcSequence (k + 1) = (adcSequence k + 1) % 4294967296) ∧
    (∀ (s : Nat) (c : VoltageMonitorCalibrationConfig) (r : AdcRawReads),
      (lastState (fillBuffer s c r)).battery_voltage =
        (fillBuffer s c r).battery_voltage ⟨ADC_BUFFER_SIZE - 1, by decide⟩ ∧
      (lastState (fillBuffer s c r)).boost_voltage =
        (fillBuffer s c r).boost_voltage ⟨ADC_BUFFER_SIZE - 1, by decide⟩ ∧
      (lastState (fillBuffer s c r)).a0 =
        (fillBuffer s c r).a0 ⟨ADC_BUFFER_SIZE - 1, by decide⟩ ∧
      (lastState (fillBuffer s c r)).a1 =
        (fillBuffer s c r).a1 ⟨ADC_BUFFER_SIZE - 1, by decide⟩ ∧
      (lastState (fillBuffer s c r)).a2 =
        (fillBuffer s c r).a2 ⟨ADC_BUFFER_SIZE - 1, by decide⟩ ∧
      (lastState (fillBuffer s c r)).a3 =
        (fillBuffer s c r).a3 ⟨ADC_BUFFER_SIZE - 1, by decide⟩ ∧
      (lastState (fillBuffer s c r)).a4 =
        (fillBuffer s c r).a4 ⟨ADC_BUFFER_SIZE - 1, by decide⟩) := by
  refine ⟨?_, ?_, ?_⟩
  · intro k
    induction k with
    | zero => rfl
    | succ k ih =>
      show wrappingAdd32 (adcSequence k) 1 = (k + 1) % 4294967296
      rw [wrappingAdd32, ih]
      omega
  · intro k
    rfl
  · intro s c r
    exact ⟨rfl, rfl, rfl, rfl, rfl, rfl, rfl⟩
